import Mathlib

/-!
Shallow embedding of the streaming-agent engine (Go sources under
internal/agent and internal/config) and proofs of the spec claims.

External effects (the gRPC library, the screenshot library, the clock,
context cancellation) are modelled as explicit environment records whose
fields are oracles for the results of the corresponding calls; the Go
control flow of each function is translated statement by statement.
-/

namespace AgentModel

/-- Go error values the agent observes: the context.Canceled sentinel,
context.DeadlineExceeded, and opaque library errors distinguished by a
numeric code. -/
inductive GoError where
  | contextCanceled
  | contextDeadlineExceeded
  | other (code : Nat)
deriving DecidableEq, Repr

/-- Identity of a duplex stream handle returned by StreamFrames/StreamEvents. -/
abbrev StreamHandle := Nat

/-- Identity of a gRPC client connection returned by DialContext. -/
abbrev Conn := Nat

/-- Opaque frame/event payload (the FrameData or EventData message passed to Send). -/
abbrev Payload := Nat

/-! ## Capture scheduler start/stop (capture.go lines 10-31)

The scheduler state is the captureStopCh field of Agent (none models a Go
nil channel) together with the set of stop channels that running
captureLoop goroutines are selecting on, and a fresh-name counter for
channel allocation. Closing a channel makes the goroutine selecting on it
return, so StopCapture removes the closed channel from the running set.
The a == nil / a.ctx == nil guard of StartCapture is outside this model:
the state always belongs to a well-formed Agent. -/

/-- Scheduler-relevant state of an Agent: the stop channel handle, the stop
channels of currently running capture loops, and a fresh channel supply. -/
structure SchedState where
  captureStopCh : Option Nat
  loops : List Nat
  nextCh : Nat
deriving DecidableEq, Repr

/-- Translation of Agent.StartCapture (capture.go:10-21): if captureStopCh
is non-nil the call is a no-op returning nil; otherwise a fresh channel is
allocated, stored, and one captureLoop goroutine is launched on it. The
returned error is nil on every path. -/
def StartCapture (st : SchedState) : SchedState × Option GoError :=
  match st.captureStopCh with
  | some _ => (st, none)
  | none =>
      let ch := st.nextCh
      ({ captureStopCh := some ch, loops := st.loops ++ [ch], nextCh := st.nextCh + 1 }, none)

/-- Translation of Agent.StopCapture (capture.go:24-31): if captureStopCh
is nil the call is a no-op; otherwise the channel is closed (terminating
the loop selecting on it) and the field is reset to nil. -/
def StopCapture (st : SchedState) : SchedState :=
  match st.captureStopCh with
  | none => st
  | some ch => { st with captureStopCh := none, loops := st.loops.filter (fun c => c ≠ ch) }

/-- Control operations on the scheduler. -/
inductive SchedOp where
  | start
  | stop
deriving DecidableEq, Repr

/-- Apply one scheduler operation (the error result of StartCapture is
discarded, as callers do). -/
def applySchedOp (st : SchedState) : SchedOp → SchedState
  | SchedOp.start => (StartCapture st).1
  | SchedOp.stop => StopCapture st

/-- Run a sequence of start/stop operations. -/
def runSched (st : SchedState) (ops : List SchedOp) : SchedState :=
  ops.foldl applySchedOp st

/-- State of a freshly constructed Agent (grpc.go:75: captureStopCh nil,
no capture loop running). -/
def initialSched : SchedState := ⟨none, [], 0⟩

/-- Scheduler invariant: stopped means no loop is running, running means
exactly the current stop channel has a loop on it. -/
def SchedInv (st : SchedState) : Prop :=
  match st.captureStopCh with
  | none => st.loops = []
  | some ch => st.loops = [ch]

/-! ## Capture loop pacing update (capture.go lines 74-78)

After a successfully processed tick the loop advances nextFrameTime by
frameInterval and then applies the catch-up policy. The two time.Now
readings involved (inside time.Since and in the reset branch) are passed
explicitly as t1 and t2, successive readings of the monotonic clock in
nanoseconds, so t1 is the clock at the lag check and t2 the clock at the
reset assignment. -/

/-- Translation of the pacing update after a processed tick: nextFrameTime
is advanced by frameInterval, then if time.Since of the advanced value
exceeds frameInterval it is reset to time.Now plus frameInterval. -/
def advanceNextFrameTime (next interval t1 t2 : Int) : Int :=
  let advanced := next + interval
  if t1 - advanced > interval then t2 + interval else advanced

/-! ## gRPC connection with retry (grpc.go lines 19-27 and 98-123) -/

/-- Constant from grpc.go:20 - maximum number of initial dial attempts. -/
def GRPC_CONNECT_MAX_ATTEMPTS : Nat := 5

/-- Constant from grpc.go:21 - delay in milliseconds between dial attempts. -/
def GRPC_RETRY_DELAY_MS : Nat := 1000

/-- Constant from grpc.go:25 - maximum number of stream reopen attempts. -/
def STREAM_REOPEN_MAX_ATTEMPTS : Nat := 3

/-- Constant from grpc.go:26 - delay in milliseconds between reopen attempts. -/
def STREAM_REOPEN_DELAY_MS : Nat := 500

/-- Client handle derived from a connection by monitorProto.NewAgentServiceClient. -/
abbrev Client := Conn

/-- Model of monitorProto.NewAgentServiceClient: derives the RPC client from
the connection handle. -/
def NewAgentServiceClient (c : Conn) : Client := c

/-- Environment for connectGRPC: the result of the blocking DialContext on
the 1-based attempt number, whether the context fires during the wait that
follows the given failed attempt, and the value of ctx.Err at that point. -/
structure ConnectEnv where
  dialResult : Nat → Except GoError Conn
  cancelDuringWait : Nat → Bool
  ctxErr : GoError

/-- Result of connectGRPC: the stored connection and derived client fields
of the Agent, the returned error (none = nil), the number of dial attempts
performed, and the list of completed inter-attempt waits in milliseconds. -/
structure ConnectOutcome where
  grpcConn : Option Conn
  agentClient : Option Client
  result : Option GoError
  dialAttempts : Nat
  fullWaitsMs : List Nat
deriving DecidableEq, Repr

/-- Loop body of connectGRPC (grpc.go:101-121): attempt is the 1-based loop
counter, fuel the remaining iterations, lastErr the lastErr variable. On a
successful dial the connection and derived client are stored and nil is
returned; on failure the loop waits (recording a full wait) unless the
context fires during the wait, in which case ctx.Err is returned. When the
fuel runs out the loop exits and lastErr is returned (grpc.go:122). -/
def connectLoop (env : ConnectEnv) (attempt fuel : Nat) (lastErr : Option GoError)
    (attempts : Nat) (waits : List Nat) : ConnectOutcome :=
  match fuel with
  | 0 => ⟨none, none, lastErr, attempts, waits⟩
  | fuel' + 1 =>
      match env.dialResult attempt with
      | Except.ok conn => ⟨some conn, some (NewAgentServiceClient conn), none, attempts + 1, waits⟩
      | Except.error e =>
          if env.cancelDuringWait attempt then
            ⟨none, none, some env.ctxErr, attempts + 1, waits⟩
          else
            connectLoop env (attempt + 1) fuel' (some e) (attempts + 1)
              (waits ++ [GRPC_RETRY_DELAY_MS])

/-- Translation of Agent.connectGRPC (grpc.go:98-123). -/
def connectGRPC (env : ConnectEnv) : ConnectOutcome :=
  connectLoop env 1 GRPC_CONNECT_MAX_ATTEMPTS none 0 []

/-! ## Stream reopening (grpc.go lines 215-261)

reopenFrameStream and reopenEventStream have identical bodies over their
respective stream fields. On a successful open the handle is replaced and a
fresh initial handshake message is sent (its failure only logged; the
handshake is a newly built message, not a caller payload, so it is not part
of the send trace modelled below). On exhaustion of all attempts the handle
is set to nil and the context.Canceled sentinel is returned; if the context
fires during an inter-attempt wait, ctx.Err is returned and the handle is
left as it was. -/

/-- Environment for the reopen routines: result of StreamFrames/StreamEvents
per 1-based attempt, cancellation during the wait after a failed attempt,
and the value of ctx.Err. -/
structure ReopenEnv where
  openResult : Nat → Except GoError StreamHandle
  cancelDuringWait : Nat → Bool
  ctxErr : GoError

/-- Result of a reopen routine: the stream handle field afterwards and the
returned error (none = nil). -/
structure ReopenOutcome where
  stream : Option StreamHandle
  result : Option GoError
deriving DecidableEq, Repr

/-- Loop body shared by reopenFrameStream/reopenEventStream
(grpc.go:218-236): i is the 1-based attempt counter, fuel the remaining
iterations, cur the stream handle on entry. -/
def reopenLoop (env : ReopenEnv) (i fuel : Nat) (cur : Option StreamHandle) : ReopenOutcome :=
  match fuel with
  | 0 => ⟨none, some GoError.contextCanceled⟩
  | fuel' + 1 =>
      match env.openResult i with
      | Except.ok s => ⟨some s, none⟩
      | Except.error _ =>
          if env.cancelDuringWait i then ⟨cur, some env.ctxErr⟩
          else reopenLoop env (i + 1) fuel' cur

/-- Translation of Agent.reopenFrameStream (grpc.go:215-237). -/
def reopenFrameStream (env : ReopenEnv) (cur : Option StreamHandle) : ReopenOutcome :=
  reopenLoop env 1 STREAM_REOPEN_MAX_ATTEMPTS cur

/-- Translation of Agent.reopenEventStream (grpc.go:239-261). -/
def reopenEventStream (env : ReopenEnv) (cur : Option StreamHandle) : ReopenOutcome :=
  reopenLoop env 1 STREAM_REOPEN_MAX_ATTEMPTS cur

/-! ## Sending on a stream (grpc.go lines 157-197) -/

/-- Environment for sendFrameData/sendEventData: the result of Send for a
given stream handle and payload (none = nil error), plus the reopen
environment used if the first send fails. -/
structure SendEnv where
  sendResult : StreamHandle → Payload → Option GoError
  reopenEnv : ReopenEnv

/-- Result of sendFrameData/sendEventData: the stream handle field
afterwards, the returned error, the Send calls performed with the caller's
payload (stream handle and payload, in order), and the number of
invocations of the reopen routine. -/
structure SendOutcome where
  stream : Option StreamHandle
  result : Option GoError
  sends : List (StreamHandle × Payload)
  reopenCalls : Nat
deriving DecidableEq, Repr

/-- Translation of Agent.sendFrameData (grpc.go:157-176): a nil stream
returns nil immediately; a failed Send triggers reopenFrameStream, and on
reopen success the same payload is sent once more on the then-current
handle (result discarded); the original Send error is returned. -/
def sendFrameData (env : SendEnv) (cur : Option StreamHandle) (frame : Payload) : SendOutcome :=
  match cur with
  | none => ⟨none, none, [], 0⟩
  | some s =>
      match env.sendResult s frame with
      | none => ⟨some s, none, [(s, frame)], 0⟩
      | some err =>
          let ro := reopenFrameStream env.reopenEnv (some s)
          match ro.result with
          | none =>
              match ro.stream with
              | some s2 => ⟨some s2, some err, [(s, frame), (s2, frame)], 1⟩
              | none => ⟨none, some err, [(s, frame)], 1⟩
          | some _ => ⟨ro.stream, some err, [(s, frame)], 1⟩

/-- Translation of Agent.sendEventData (grpc.go:178-197), identical in
structure to sendFrameData over the event stream. -/
def sendEventData (env : SendEnv) (cur : Option StreamHandle) (event : Payload) : SendOutcome :=
  match cur with
  | none => ⟨none, none, [], 0⟩
  | some s =>
      match env.sendResult s event with
      | none => ⟨some s, none, [(s, event)], 0⟩
      | some err =>
          let ro := reopenEventStream env.reopenEnv (some s)
          match ro.result with
          | none =>
              match ro.stream with
              | some s2 => ⟨some s2, some err, [(s, event), (s2, event)], 1⟩
              | none => ⟨none, some err, [(s, event)], 1⟩
          | some _ => ⟨ro.stream, some err, [(s, event)], 1⟩

/-- Concrete reopen environment in which every open attempt fails and the
context never fires. -/
def reopenEnvAllFail : ReopenEnv :=
  ⟨fun i => Except.error (GoError.other i), fun _ => false, GoError.contextCanceled⟩

/-- Concrete send environment in which every Send fails and every reopen
attempt fails. -/
def sendEnvAllFail : SendEnv :=
  ⟨fun s _ => some (GoError.other s), reopenEnvAllFail⟩

/-- Concrete send environment in which Send fails on every stream (the error
encodes the stream handle) while reopening succeeds immediately with stream
handle 1. -/
def sendEnvRetry : SendEnv :=
  ⟨fun s _ => some (GoError.other (s + 10)),
   ⟨fun _ => Except.ok 1, fun _ => false, GoError.contextCanceled⟩⟩

/-- Concrete connect environment in which the dial succeeds on attempt 2
with connection 42 and fails otherwise. -/
def connectEnvSucc2 : ConnectEnv :=
  ⟨fun j => if j = 2 then Except.ok 42 else Except.error (GoError.other j),
   fun _ => false, GoError.contextCanceled⟩

/-- Concrete connect environment in which every dial fails and the context
never fires. -/
def connectEnvAllFail : ConnectEnv :=
  ⟨fun j => Except.error (GoError.other j), fun _ => false, GoError.contextCanceled⟩

/-- Concrete connect environment in which every dial fails and the context
fires during the wait after attempt 2. -/
def connectEnvCancel2 : ConnectEnv :=
  ⟨fun j => Except.error (GoError.other j), fun j => j == 2, GoError.contextCanceled⟩

/-- Concrete reopen environment in which every open fails and the context
fires during the wait after attempt 2. -/
def reopenEnvCancel2 : ReopenEnv :=
  ⟨fun i => Except.error (GoError.other i), fun i => i == 2, GoError.contextCanceled⟩

/-! ## Configuration (internal/config/config.go lines 23-34)

config.Load allocates one Config value and returns a pointer to it;
agent.New (grpc.go:67-77) stores that pointer itself in the Agent, so the
Agent's cfg field and the caller's original Config are one and the same
object. The Config structure below models the contents of that single
shared cell. -/

/-- Translation of the Config structure (config.go:23-34). -/
structure Config where
  ServerAddr : String
  CaptureIntervalMs : Int
  TargetFPS : Int
  FrameWidth : Int
  FrameHeight : Int
  MonitorMode : String
  MonitorIndex : Int
  CaptureEncoding : String
  JpegQuality : Int
  ForcePreview : Bool
deriving DecidableEq, Repr

/-- Fields of Config other than MonitorMode and MonitorIndex, bundled for
stating which parts of the shared Config the control surface leaves
untouched. -/
def otherFields (c : Config) : String × Int × Int × Int × Int × String × Int × Bool :=
  (c.ServerAddr, c.CaptureIntervalMs, c.TargetFPS, c.FrameWidth, c.FrameHeight,
   c.CaptureEncoding, c.JpegQuality, c.ForcePreview)

/-! ## Capture strategies (internal/agent/capturer.go) -/

/-- Translation of the screenshotCapturer structure (capturer.go:60-65). -/
structure ScreenshotCapturer where
  mode : String
  monitorIndex : Int
  encoding : String
  jpegQuality : Int
deriving DecidableEq, Repr

/-- Translation of newScreenshotCapturer (capturer.go:68-70). -/
def newScreenshotCapturer (mode : String) (idx : Int) (encoding : String)
    (quality : Int) : ScreenshotCapturer :=
  ⟨mode, idx, encoding, quality⟩

/-- Variants of the screenCapturer interface held by the Agent: the dummy
generator (capturer.go:21-24) or the screenshot capturer. -/
inductive Capturer where
  | dummy (width height : Int)
  | shot (s : ScreenshotCapturer)
deriving DecidableEq, Repr

/-- Monitor-control-relevant state of an Agent: the contents of the single
shared Config cell and the active capturer. -/
structure MonState where
  cfg : Config
  capturer : Capturer
deriving DecidableEq, Repr

/-- Translation of the capturer selection and config storage in agent.New
(grpc.go:61-77): on a supported OS the screenshot capturer is built from
the config fields, otherwise the dummy one; the cfg pointer is stored
as-is, so the state's cfg cell is the caller's Config object. -/
def agentNew (cfg : Config) (goosSupported : Bool) : MonState :=
  if goosSupported then
    ⟨cfg, Capturer.shot (newScreenshotCapturer cfg.MonitorMode cfg.MonitorIndex
      cfg.CaptureEncoding cfg.JpegQuality)⟩
  else
    ⟨cfg, Capturer.dummy cfg.FrameWidth cfg.FrameHeight⟩

/-- Translation of Agent.SelectSingleMonitor (capturer.go:98-109):
displayCount is the screenshot.NumActiveDisplays() result at call time; an
out-of-range index returns false with no state change; otherwise the
shared config's MonitorMode and MonitorIndex are overwritten and a new
single-mode capturer is installed. -/
def SelectSingleMonitor (st : MonState) (displayCount : Nat) (index : Int) :
    MonState × Bool :=
  if index < 0 ∨ (displayCount : Int) ≤ index then (st, false)
  else
    let cfg1 := { st.cfg with MonitorMode := "single" }
    let cfg2 := { cfg1 with MonitorIndex := index }
    (⟨cfg2, Capturer.shot (newScreenshotCapturer "single" index cfg2.CaptureEncoding
      cfg2.JpegQuality)⟩, true)

/-- Translation of Agent.SetCombinedMode (capturer.go:112-117). -/
def SetCombinedMode (st : MonState) : MonState :=
  let cfg1 := { st.cfg with MonitorMode := "combined" }
  ⟨cfg1, Capturer.shot (newScreenshotCapturer "combined" 0 cfg1.CaptureEncoding
    cfg1.JpegQuality)⟩

/-- Control-surface operations that touch the capturer and the shared config. -/
inductive ControlOp where
  | selectSingle (displayCount : Nat) (index : Int)
  | setCombined
deriving DecidableEq, Repr

/-- Apply one control operation (the boolean result of SelectSingleMonitor
is discarded). -/
def applyControlOp (st : MonState) : ControlOp → MonState
  | ControlOp.selectSingle count index => (SelectSingleMonitor st count index).1
  | ControlOp.setCombined => SetCombinedMode st

/-- Run a sequence of control operations. -/
def runControl (st : MonState) (ops : List ControlOp) : MonState :=
  ops.foldl applyControlOp st

/-- Concrete Config with the loader defaults except combined monitor mode. -/
def cfg0 : Config :=
  ⟨"localhost:50051", 1000, 60, 200, 150, "combined", 0, "png", 80, false⟩

/-! ## Images and the Capture method (capturer.go lines 119-162)

Images are modelled with explicit integer dimensions and a pixel function;
both image.NewRGBA and screenshot.CaptureRect produce images whose bounds
start at the origin. draw.Draw with the Src operator copies, for every
point of the target rectangle clipped to the destination and source
bounds, the source pixel at the point's offset from the rectangle's
minimum. -/

/-- Pixel color value, kept opaque. -/
abbrev Color := Nat

/-- In-memory image with bounds (0, 0, width, height). -/
structure Image where
  width : Int
  height : Int
  pix : Int → Int → Color

/-- Rectangle with the fields of image.Rectangle flattened. -/
structure Rect where
  minX : Int
  minY : Int
  maxX : Int
  maxY : Int
deriving DecidableEq, Repr

/-- Width of a rectangle (image.Rectangle.Dx). -/
def Rect.dx (r : Rect) : Int := r.maxX - r.minX

/-- Height of a rectangle (image.Rectangle.Dy). -/
def Rect.dy (r : Rect) : Int := r.maxY - r.minY

/-- Default rectangle used only as a List.getD fallback; the code never
indexes out of range. -/
def rectDefault : Rect := ⟨0, 0, 0, 0⟩

/-- Model of image.NewRGBA(image.Rect(0, 0, w, h)): a zero-filled image. -/
def newRGBA (w h : Int) : Image := ⟨w, h, fun _ _ => 0⟩

/-- Model of draw.Draw(dst, r, src, image.Point\x7b\x7d, draw.Src) for the
target rectangle (rMinX, rMinY, rMaxX, rMaxY): each target point inside the
destination and source bounds receives the source pixel at its offset from
the rectangle minimum. -/
def drawSrc (dst : Image) (rMinX rMinY rMaxX rMaxY : Int) (src : Image) : Image :=
  { dst with pix := fun x y =>
      if rMinX ≤ x ∧ x < rMaxX ∧ rMinY ≤ y ∧ y < rMaxY ∧
          0 ≤ x ∧ x < dst.width ∧ 0 ≤ y ∧ y < dst.height ∧
          0 ≤ x - rMinX ∧ x - rMinX < src.width ∧
          0 ≤ y - rMinY ∧ y - rMinY < src.height then
        src.pix (x - rMinX) (y - rMinY)
      else dst.pix x y }

/-- Environment for the screenshot library: the enumerated display bounds
(screenshot.NumActiveDisplays is the length, screenshot.GetDisplayBounds i
the i-th entry) and the result of screenshot.CaptureRect. -/
structure ScreenEnv where
  displays : List Rect
  captureRect : Rect → Except GoError Image

/-- Encoded image bytes, modelled as the encoding tag applied to the image
handed to png.Encode or jpeg.Encode (capturer.go:165-180). -/
inductive Encoded where
  | png (img : Image)
  | jpeg (quality : Int) (img : Image)

/-- Translation of screenshotCapturer.encode (capturer.go:183-188). -/
def ScreenshotCapturer.encode (s : ScreenshotCapturer) (img : Image) : Encoded :=
  if s.encoding = "jpeg" then Encoded.jpeg s.jpegQuality img else Encoded.png img

/-- Translation of the totalWidth accumulation in the combined branch
(capturer.go:138-148). -/
def totalWidth (bounds : List Rect) : Int :=
  bounds.foldl (fun acc b => acc + Rect.dx b) 0

/-- Translation of the maxHeight accumulation in the combined branch
(capturer.go:139-148). -/
def maxHeightFold (bounds : List Rect) : Int :=
  bounds.foldl (fun acc b => if Rect.dy b > acc then Rect.dy b else acc) 0

/-- Sum of the widths of the first i displays: the cumulative horizontal
offset at which display i is drawn. -/
def widthsBefore (bounds : List Rect) (i : Nat) : Int :=
  ((bounds.take i).map Rect.dx).sum

/-- Translation of the second combined-branch loop (capturer.go:150-160):
capture each display and draw it onto the canvas at the running horizontal
offset, top-aligned; a capture error aborts the whole call. -/
def drawDisplays (env : ScreenEnv) (bounds : List Rect) (canvas : Image)
    (offsetX : Int) : Except GoError Image :=
  match bounds with
  | [] => Except.ok canvas
  | b :: rest =>
      match env.captureRect b with
      | Except.error e => Except.error e
      | Except.ok img =>
          drawDisplays env rest
            (drawSrc canvas offsetX 0 (offsetX + Rect.dx b) (Rect.dy b) img)
            (offsetX + Rect.dx b)

/-- Translation of screenshotCapturer.Capture (capturer.go:120-162). The
second component is the capturer value afterwards: the single-mode
fallback assignment s.monitorIndex = 0 (capturer.go:127-129) mutates the
receiver through its pointer, so the post-state can differ from the input. -/
def ScreenshotCapturer.Capture (s : ScreenshotCapturer) (env : ScreenEnv) :
    Except GoError Encoded × ScreenshotCapturer :=
  let count := env.displays.length
  if count = 0 then (Except.ok (s.encode (newRGBA 1 1)), s)
  else if s.mode = "single" then
    let s' := if (count : Int) ≤ s.monitorIndex then { s with monitorIndex := 0 } else s
    let b := env.displays.getD s'.monitorIndex.toNat rectDefault
    match env.captureRect b with
    | Except.error e => (Except.error e, s')
    | Except.ok img => (Except.ok (s'.encode img), s')
  else
    let canvas := newRGBA (totalWidth env.displays) (maxHeightFold env.displays)
    match drawDisplays env env.displays canvas 0 with
    | Except.error e => (Except.error e, s)
    | Except.ok canvas2 => (Except.ok (s.encode canvas2), s)

/-- Captured image for a rectangle in the concrete test environments: the
dimensions of the rectangle with a pixel function encoding the rectangle
and the coordinates. -/
def capImg (r : Rect) : Image :=
  ⟨Rect.dx r, Rect.dy r, fun x y => (r.maxX + x + 1000 * y).toNat⟩

/-- Concrete screen environment with one 800 x 600 display on which every
capture succeeds. -/
def shotEnv1 : ScreenEnv := ⟨[⟨0, 0, 800, 600⟩], fun r => Except.ok (capImg r)⟩

/-- Concrete display list of the spec's combined-mode example. -/
def displays2 : List Rect := [⟨0, 0, 800, 600⟩, ⟨0, 0, 1024, 768⟩]

/-- Concrete screen environment with the spec's example displays. -/
def shotEnv2 : ScreenEnv := ⟨displays2, fun r => Except.ok (capImg r)⟩

/-- Concrete screen environment with no displays. -/
def shotEnv0 : ScreenEnv := ⟨[], fun r => Except.ok (capImg r)⟩

end AgentModel

namespace AgentModel

/-- Helper: StartCapture and StopCapture preserve the scheduler invariant. -/
theorem schedInv_applySchedOp (st : SchedState) (op : SchedOp) (h : SchedInv st) :
    SchedInv (applySchedOp st op) := by
  cases op with
  | start =>
      cases hch : st.captureStopCh with
      | none =>
          simp [applySchedOp, StartCapture, hch, SchedInv] at h ⊢
          simp [h]
      | some c =>
          simpa [applySchedOp, StartCapture, hch, SchedInv, hch] using h
  | stop =>
      cases hch : st.captureStopCh with
      | none => simpa [applySchedOp, StopCapture, hch, SchedInv, hch] using h
      | some c =>
          simp [SchedInv, hch] at h
          simp [applySchedOp, StopCapture, hch, SchedInv, h]

/-- Helper: the invariant holds along any run. -/
theorem schedInv_runSched (ops : List SchedOp) (st : SchedState) (h : SchedInv st) :
    SchedInv (runSched st ops) := by
  induction ops generalizing st with
  | nil => simpa [runSched] using h
  | cons op rest ih =>
      simpa [runSched] using ih (applySchedOp st op) (schedInv_applySchedOp st op h)

/-- C9: StartCapture and StopCapture are idempotent. StartCapture never
errors; from the Stopped state it allocates a fresh stop channel and
launches exactly one capture loop; while Running it is a complete no-op.
StopCapture from Running closes the stop channel (stopping its loop) and
resets the handle; while Stopped it is a no-op. The invariant (at most the
one current loop runs) holds on every run from the initial state, and a
double start from any invariant state leaves exactly one loop running. -/
theorem startStop_idempotent :
    (∀ st : SchedState, (StartCapture st).2 = none) ∧
    (∀ st : SchedState, st.captureStopCh = none →
      (StartCapture st).1.captureStopCh = some st.nextCh ∧
      (StartCapture st).1.loops = st.loops ++ [st.nextCh]) ∧
    (∀ (st : SchedState) (ch : Nat), st.captureStopCh = some ch → (StartCapture st).1 = st) ∧
    (∀ (st : SchedState) (ch : Nat), st.captureStopCh = some ch →
      (StopCapture st).captureStopCh = none ∧
      (StopCapture st).loops = st.loops.filter (fun c => c ≠ ch)) ∧
    (∀ st : SchedState, st.captureStopCh = none → StopCapture st = st) ∧
    (∀ ops : List SchedOp, SchedInv (runSched initialSched ops)) ∧
    (∀ st : SchedState, SchedInv st → (StartCapture (StartCapture st).1).1.loops.length = 1) := by
  refine ⟨?_, ?_, ?_, ?_, ?_, ?_, ?_⟩
  · intro st
    cases hch : st.captureStopCh <;> simp [StartCapture, hch]
  · intro st h
    simp [StartCapture, h]
  · intro st ch h
    simp [StartCapture, h]
  · intro st ch h
    simp [StopCapture, h]
  · intro st h
    simp [StopCapture, h]
  · intro ops
    exact schedInv_runSched ops initialSched (by simp [initialSched, SchedInv])
  · intro st h
    cases hch : st.captureStopCh with
    | none =>
        simp [SchedInv, hch] at h
        simp [StartCapture, hch, h]
    | some c =>
        simp [SchedInv, hch] at h
        simp [StartCapture, hch, h]

/-- Witness for C9: the double-start property and the transition equations
evaluated at concrete states. -/
theorem startStop_idempotent_witness :
    ((⟨none, [], 0⟩ : SchedState).captureStopCh = none ∧
      (StartCapture ⟨none, [], 0⟩).1.captureStopCh = some 0 ∧
      (StartCapture ⟨none, [], 0⟩).1.loops = [] ++ [0]) ∧
    ((⟨some 4, [4], 5⟩ : SchedState).captureStopCh = some 4 ∧
      (StartCapture ⟨some 4, [4], 5⟩).1 = ⟨some 4, [4], 5⟩) ∧
    (StopCapture ⟨some 4, [4], 5⟩).captureStopCh = none ∧
    (StopCapture ⟨none, [], 0⟩ = (⟨none, [], 0⟩ : SchedState)) ∧
    SchedInv (runSched initialSched [SchedOp.start, SchedOp.start, SchedOp.stop]) ∧
    (StartCapture (StartCapture (⟨none, [], 0⟩ : SchedState)).1).1.loops.length = 1 :=
  ⟨⟨rfl, startStop_idempotent.2.1 ⟨none, [], 0⟩ rfl⟩,
   ⟨rfl, startStop_idempotent.2.2.1 ⟨some 4, [4], 5⟩ 4 rfl⟩,
   (startStop_idempotent.2.2.2.1 ⟨some 4, [4], 5⟩ 4 rfl).1,
   startStop_idempotent.2.2.2.2.1 ⟨none, [], 0⟩ rfl,
   startStop_idempotent.2.2.2.2.2.1 [SchedOp.start, SchedOp.start, SchedOp.stop],
   startStop_idempotent.2.2.2.2.2.2 ⟨none, [], 0⟩ (by simp [SchedInv])⟩

/-- C3: the pacing update advances nextFrameTime by exactly frameInterval;
when the lag of the clock past the advanced value exceeds one full
interval, the value is reset to now plus frameInterval (otherwise it is
left at the advanced value); after such a reset the new nextFrameTime lies
strictly in the future (so the loop waits before the next capture, no
back-to-back burst), and the following tick performs no second reset as
long as its lag check happens within two intervals of the reset value,
i.e. a single stall causes exactly one reset. -/
theorem captureLoop_catchup_spec :
    (∀ next interval t1 t2 : Int, t1 - (next + interval) ≤ interval →
      advanceNextFrameTime next interval t1 t2 = next + interval) ∧
    (∀ next interval t1 t2 : Int, t1 - (next + interval) > interval →
      advanceNextFrameTime next interval t1 t2 = t2 + interval) ∧
    (∀ next interval t1 t2 : Int, 0 < interval → t1 - (next + interval) > interval →
      t2 < advanceNextFrameTime next interval t1 t2) ∧
    (∀ next interval t1 t2 t3 t4 : Int, t1 - (next + interval) > interval →
      t3 ≤ advanceNextFrameTime next interval t1 t2 + 2 * interval →
      advanceNextFrameTime (advanceNextFrameTime next interval t1 t2) interval t3 t4 =
        advanceNextFrameTime next interval t1 t2 + interval) := by
  refine ⟨?_, ?_, ?_, ?_⟩
  · intro next interval t1 t2 h
    simp only [advanceNextFrameTime]
    omega
  · intro next interval t1 t2 h
    simp only [advanceNextFrameTime]
    omega
  · intro next interval t1 t2 hpos h
    simp only [advanceNextFrameTime]
    omega
  · intro next interval t1 t2 t3 t4 h h3
    simp only [advanceNextFrameTime] at h3 ⊢
    omega

/-- Witness for C3 at a concrete stall: interval 100, nextFrameTime 0, a
stall makes the lag check read 350; the update resets to 500 plus 100 and
the following tick (check at 700) does not reset again. -/
theorem captureLoop_catchup_spec_witness :
    ((50 : Int) - (0 + 100) ≤ 100 ∧ advanceNextFrameTime 0 100 50 50 = 0 + 100) ∧
    ((350 : Int) - (0 + 100) > 100 ∧ advanceNextFrameTime 0 100 350 500 = 500 + 100) ∧
    ((500 : Int) < advanceNextFrameTime 0 100 350 500) ∧
    ((700 : Int) ≤ advanceNextFrameTime 0 100 350 500 + 2 * 100 ∧
      advanceNextFrameTime (advanceNextFrameTime 0 100 350 500) 100 700 700 =
        advanceNextFrameTime 0 100 350 500 + 100) :=
  ⟨⟨by decide, captureLoop_catchup_spec.1 0 100 50 50 (by decide)⟩,
   ⟨by decide, captureLoop_catchup_spec.2.1 0 100 350 500 (by decide)⟩,
   captureLoop_catchup_spec.2.2.1 0 100 350 500 (by decide) (by decide),
   ⟨by decide, captureLoop_catchup_spec.2.2.2 0 100 350 500 700 700 (by decide) (by decide)⟩⟩

/-- Helper: connectLoop performs at most fuel further dial attempts. -/
theorem connectLoop_attempts_le (env : ConnectEnv) (fuel : Nat) :
    ∀ (attempt : Nat) (lastErr : Option GoError) (attempts : Nat) (waits : List Nat),
      (connectLoop env attempt fuel lastErr attempts waits).dialAttempts ≤ attempts + fuel := by
  induction fuel with
  | zero =>
      intro attempt lastErr attempts waits
      simp [connectLoop]
  | succ fuel ih =>
      intro attempt lastErr attempts waits
      simp only [connectLoop]
      cases hd : env.dialResult attempt with
      | ok c => simp
      | error e =>
          by_cases hc : env.cancelDuringWait attempt
          · simp [hc]
          · simp only [hc, if_false, Bool.false_eq_true]
            have h := ih (attempt + 1) (some e) (attempts + 1) (waits ++ [GRPC_RETRY_DELAY_MS])
            omega

/-- C2: connectGRPC makes at most 5 dial attempts with a 1000 ms wait after
each failure (in particular between consecutive attempts); the first
successful attempt stores the connection and the derived client and
returns nil immediately; after 5 failures without cancellation the last
dial error is returned (the loop also completes one final wait after the
fifth failure before returning); cancellation during a wait returns
ctx.Err instead. -/
theorem connectGRPC_spec :
    (GRPC_CONNECT_MAX_ATTEMPTS = 5 ∧ GRPC_RETRY_DELAY_MS = 1000 ∧
      ∀ env : ConnectEnv, (connectGRPC env).dialAttempts ≤ 5) ∧
    (∀ (env : ConnectEnv) (k : Nat) (c : Conn) (errOf : Nat → GoError),
      1 ≤ k → k ≤ 5 →
      (∀ j, 1 ≤ j → j < k → env.dialResult j = Except.error (errOf j)) →
      (∀ j, 1 ≤ j → j < k → env.cancelDuringWait j = false) →
      env.dialResult k = Except.ok c →
      connectGRPC env =
        ⟨some c, some (NewAgentServiceClient c), none, k,
          List.replicate (k - 1) GRPC_RETRY_DELAY_MS⟩) ∧
    (∀ (env : ConnectEnv) (errOf : Nat → GoError),
      (∀ j, 1 ≤ j → j ≤ 5 → env.dialResult j = Except.error (errOf j)) →
      (∀ j, 1 ≤ j → j ≤ 5 → env.cancelDuringWait j = false) →
      connectGRPC env = ⟨none, none, some (errOf 5), 5,
        List.replicate 5 GRPC_RETRY_DELAY_MS⟩) ∧
    (∀ (env : ConnectEnv) (k : Nat) (errOf : Nat → GoError),
      1 ≤ k → k ≤ 5 →
      (∀ j, 1 ≤ j → j ≤ k → env.dialResult j = Except.error (errOf j)) →
      (∀ j, 1 ≤ j → j < k → env.cancelDuringWait j = false) →
      env.cancelDuringWait k = true →
      connectGRPC env =
        ⟨none, none, some env.ctxErr, k, List.replicate (k - 1) GRPC_RETRY_DELAY_MS⟩) := by
  refine ⟨⟨rfl, rfl, ?_⟩, ?_, ?_, ?_⟩
  · intro env
    have h := connectLoop_attempts_le env GRPC_CONNECT_MAX_ATTEMPTS 1 none 0 []
    simpa [connectGRPC, GRPC_CONNECT_MAX_ATTEMPTS] using h
  · intro env k c errOf hk1 hk5 herr hcanc hok
    interval_cases k
    · simp [connectGRPC, connectLoop, GRPC_CONNECT_MAX_ATTEMPTS, hok]
    · have e1 := herr 1 (by omega) (by omega)
      have c1 := hcanc 1 (by omega) (by omega)
      simp [connectGRPC, connectLoop, GRPC_CONNECT_MAX_ATTEMPTS, e1, c1, hok, List.replicate]
    · have e1 := herr 1 (by omega) (by omega)
      have e2 := herr 2 (by omega) (by omega)
      have c1 := hcanc 1 (by omega) (by omega)
      have c2 := hcanc 2 (by omega) (by omega)
      simp [connectGRPC, connectLoop, GRPC_CONNECT_MAX_ATTEMPTS, e1, e2, c1, c2, hok,
        List.replicate]
    · have e1 := herr 1 (by omega) (by omega)
      have e2 := herr 2 (by omega) (by omega)
      have e3 := herr 3 (by omega) (by omega)
      have c1 := hcanc 1 (by omega) (by omega)
      have c2 := hcanc 2 (by omega) (by omega)
      have c3 := hcanc 3 (by omega) (by omega)
      simp [connectGRPC, connectLoop, GRPC_CONNECT_MAX_ATTEMPTS, e1, e2, e3, c1, c2, c3, hok,
        List.replicate]
    · have e1 := herr 1 (by omega) (by omega)
      have e2 := herr 2 (by omega) (by omega)
      have e3 := herr 3 (by omega) (by omega)
      have e4 := herr 4 (by omega) (by omega)
      have c1 := hcanc 1 (by omega) (by omega)
      have c2 := hcanc 2 (by omega) (by omega)
      have c3 := hcanc 3 (by omega) (by omega)
      have c4 := hcanc 4 (by omega) (by omega)
      simp [connectGRPC, connectLoop, GRPC_CONNECT_MAX_ATTEMPTS, e1, e2, e3, e4, c1, c2, c3, c4,
        hok, List.replicate]
  · intro env errOf herr hcanc
    have e1 := herr 1 (by omega) (by omega)
    have e2 := herr 2 (by omega) (by omega)
    have e3 := herr 3 (by omega) (by omega)
    have e4 := herr 4 (by omega) (by omega)
    have e5 := herr 5 (by omega) (by omega)
    have c1 := hcanc 1 (by omega) (by omega)
    have c2 := hcanc 2 (by omega) (by omega)
    have c3 := hcanc 3 (by omega) (by omega)
    have c4 := hcanc 4 (by omega) (by omega)
    have c5 := hcanc 5 (by omega) (by omega)
    simp [connectGRPC, connectLoop, GRPC_CONNECT_MAX_ATTEMPTS, e1, e2, e3, e4, e5, c1, c2, c3,
      c4, c5, List.replicate]
  · intro env k errOf hk1 hk5 herr hcanc hck
    interval_cases k
    · have e1 := herr 1 (by omega) (by omega)
      simp [connectGRPC, connectLoop, GRPC_CONNECT_MAX_ATTEMPTS, e1, hck, List.replicate]
    · have e1 := herr 1 (by omega) (by omega)
      have e2 := herr 2 (by omega) (by omega)
      have c1 := hcanc 1 (by omega) (by omega)
      simp [connectGRPC, connectLoop, GRPC_CONNECT_MAX_ATTEMPTS, e1, e2, c1, hck,
        List.replicate]
    · have e1 := herr 1 (by omega) (by omega)
      have e2 := herr 2 (by omega) (by omega)
      have e3 := herr 3 (by omega) (by omega)
      have c1 := hcanc 1 (by omega) (by omega)
      have c2 := hcanc 2 (by omega) (by omega)
      simp [connectGRPC, connectLoop, GRPC_CONNECT_MAX_ATTEMPTS, e1, e2, e3, c1, c2, hck,
        List.replicate]
    · have e1 := herr 1 (by omega) (by omega)
      have e2 := herr 2 (by omega) (by omega)
      have e3 := herr 3 (by omega) (by omega)
      have e4 := herr 4 (by omega) (by omega)
      have c1 := hcanc 1 (by omega) (by omega)
      have c2 := hcanc 2 (by omega) (by omega)
      have c3 := hcanc 3 (by omega) (by omega)
      simp [connectGRPC, connectLoop, GRPC_CONNECT_MAX_ATTEMPTS, e1, e2, e3, e4, c1, c2, c3,
        hck, List.replicate]
    · have e1 := herr 1 (by omega) (by omega)
      have e2 := herr 2 (by omega) (by omega)
      have e3 := herr 3 (by omega) (by omega)
      have e4 := herr 4 (by omega) (by omega)
      have e5 := herr 5 (by omega) (by omega)
      have c1 := hcanc 1 (by omega) (by omega)
      have c2 := hcanc 2 (by omega) (by omega)
      have c3 := hcanc 3 (by omega) (by omega)
      have c4 := hcanc 4 (by omega) (by omega)
      simp [connectGRPC, connectLoop, GRPC_CONNECT_MAX_ATTEMPTS, e1, e2, e3, e4, e5, c1, c2,
        c3, c4, hck, List.replicate]

/-- Witness for C2 at concrete environments: success on attempt 2,
exhaustion after five failures, and cancellation during the wait after
attempt 2. -/
theorem connectGRPC_spec_witness :
    ((connectGRPC connectEnvSucc2).dialAttempts ≤ 5) ∧
    (connectGRPC connectEnvSucc2 =
      ⟨some 42, some (NewAgentServiceClient 42), none, 2,
        List.replicate 1 GRPC_RETRY_DELAY_MS⟩) ∧
    (connectGRPC connectEnvAllFail =
      ⟨none, none, some (GoError.other 5), 5, List.replicate 5 GRPC_RETRY_DELAY_MS⟩) ∧
    (connectGRPC connectEnvCancel2 =
      ⟨none, none, some GoError.contextCanceled, 2, List.replicate 1 GRPC_RETRY_DELAY_MS⟩) :=
  ⟨connectGRPC_spec.1.2.2 connectEnvSucc2,
   connectGRPC_spec.2.1 connectEnvSucc2 2 42 GoError.other (by omega) (by omega)
     (by intro j h1 h2; have : j = 1 := by omega
         subst this; rfl)
     (by intro j h1 h2; rfl) rfl,
   connectGRPC_spec.2.2.1 connectEnvAllFail GoError.other
     (by intro j h1 h2; rfl) (by intro j h1 h2; rfl),
   connectGRPC_spec.2.2.2 connectEnvCancel2 2 GoError.other (by omega) (by omega)
     (by intro j h1 h2; rfl)
     (by intro j h1 h2; have : j = 1 := by omega
         subst this; rfl) rfl⟩

/-- C10: when every reopen attempt fails and the context never fires, both
reopen routines set the stream handle to nil and return the
context.Canceled sentinel, independently of the actual open errors; and
when the context fires during a wait after a cancel call (so ctx.Err is
context.Canceled), the returned error is the same sentinel - callers
cannot tell exhaustion from cancellation apart by the returned error. -/
theorem reopen_exhaustion_sentinel :
    (STREAM_REOPEN_MAX_ATTEMPTS = 3 ∧
      ∀ (env : ReopenEnv) (cur : Option StreamHandle) (errOf : Nat → GoError),
      (∀ i, 1 ≤ i → i ≤ 3 → env.openResult i = Except.error (errOf i)) →
      (∀ i, 1 ≤ i → i ≤ 3 → env.cancelDuringWait i = false) →
      reopenFrameStream env cur = ⟨none, some GoError.contextCanceled⟩ ∧
      reopenEventStream env cur = ⟨none, some GoError.contextCanceled⟩) ∧
    (∀ (env : ReopenEnv) (cur : Option StreamHandle) (k : Nat) (errOf : Nat → GoError),
      1 ≤ k → k ≤ 3 →
      (∀ i, 1 ≤ i → i ≤ k → env.openResult i = Except.error (errOf i)) →
      (∀ i, 1 ≤ i → i < k → env.cancelDuringWait i = false) →
      env.cancelDuringWait k = true →
      env.ctxErr = GoError.contextCanceled →
      (reopenFrameStream env cur).result = some GoError.contextCanceled ∧
      (reopenEventStream env cur).result = some GoError.contextCanceled) := by
  constructor
  · refine ⟨rfl, ?_⟩
    intro env cur errOf hopen hcanc
    have e1 := hopen 1 (by omega) (by omega)
    have e2 := hopen 2 (by omega) (by omega)
    have e3 := hopen 3 (by omega) (by omega)
    have c1 := hcanc 1 (by omega) (by omega)
    have c2 := hcanc 2 (by omega) (by omega)
    have c3 := hcanc 3 (by omega) (by omega)
    constructor <;>
      simp [reopenFrameStream, reopenEventStream, reopenLoop, STREAM_REOPEN_MAX_ATTEMPTS,
        e1, e2, e3, c1, c2, c3]
  · intro env cur k errOf hk1 hk3 hopen hcanc hck hctx
    interval_cases k
    · have e1 := hopen 1 (by omega) (by omega)
      constructor <;>
        simp [reopenFrameStream, reopenEventStream, reopenLoop, STREAM_REOPEN_MAX_ATTEMPTS,
          e1, hck, hctx]
    · have e1 := hopen 1 (by omega) (by omega)
      have e2 := hopen 2 (by omega) (by omega)
      have c1 := hcanc 1 (by omega) (by omega)
      constructor <;>
        simp [reopenFrameStream, reopenEventStream, reopenLoop, STREAM_REOPEN_MAX_ATTEMPTS,
          e1, e2, c1, hck, hctx]
    · have e1 := hopen 1 (by omega) (by omega)
      have e2 := hopen 2 (by omega) (by omega)
      have e3 := hopen 3 (by omega) (by omega)
      have c1 := hcanc 1 (by omega) (by omega)
      have c2 := hcanc 2 (by omega) (by omega)
      constructor <;>
        simp [reopenFrameStream, reopenEventStream, reopenLoop, STREAM_REOPEN_MAX_ATTEMPTS,
          e1, e2, e3, c1, c2, hck, hctx]

/-- Witness for C10: with every open failing and no cancellation, both
routines return the sentinel and nil the handle; with cancellation during
the wait after attempt 2 the result is the same sentinel. -/
theorem reopen_exhaustion_sentinel_witness :
    (reopenFrameStream reopenEnvAllFail (some 7) = ⟨none, some GoError.contextCanceled⟩ ∧
      reopenEventStream reopenEnvAllFail (some 7) = ⟨none, some GoError.contextCanceled⟩) ∧
    ((reopenFrameStream reopenEnvCancel2 (some 7)).result = some GoError.contextCanceled ∧
      (reopenEventStream reopenEnvCancel2 (some 7)).result = some GoError.contextCanceled) :=
  ⟨reopen_exhaustion_sentinel.1.2 reopenEnvAllFail (some 7) (fun i => GoError.other i)
     (by intro i h1 h2; rfl) (by intro i h1 h2; rfl),
   reopen_exhaustion_sentinel.2 reopenEnvCancel2 (some 7) 2 (fun i => GoError.other i)
     (by omega) (by omega) (by intro i h1 h2; rfl)
     (by intro i h1 h2; have : i = 1 := by omega
         subst this; rfl) rfl rfl⟩

/-- C1: if the Send on the current stream handle fails and the reopen
routine succeeds with a new handle, sendFrameData and sendEventData send
the same payload exactly once more on the new handle, invoke the reopen
routine exactly once, and return the original Send error - all of this
irrespective of the result of the retransmission (the environment leaves
the second Send result unconstrained). -/
theorem sendData_retransmit_once :
    (∀ (env : SendEnv) (s s2 : StreamHandle) (p : Payload) (e : GoError),
      env.sendResult s p = some e →
      reopenFrameStream env.reopenEnv (some s) = ⟨some s2, none⟩ →
      sendFrameData env (some s) p = ⟨some s2, some e, [(s, p), (s2, p)], 1⟩) ∧
    (∀ (env : SendEnv) (s s2 : StreamHandle) (p : Payload) (e : GoError),
      env.sendResult s p = some e →
      reopenEventStream env.reopenEnv (some s) = ⟨some s2, none⟩ →
      sendEventData env (some s) p = ⟨some s2, some e, [(s, p), (s2, p)], 1⟩) := by
  constructor
  · intro env s s2 p e hsend hro
    simp [sendFrameData, hsend, hro]
  · intro env s s2 p e hsend hro
    simp [sendEventData, hsend, hro]

/-- Witness for C1 in an environment where the retransmission itself fails
again: the call still performs exactly one retransmission, one reopen, and
returns the original error. -/
theorem sendData_retransmit_once_witness :
    (sendEnvRetry.sendResult 0 7 = some (GoError.other 10) ∧
      sendEnvRetry.sendResult 1 7 = some (GoError.other 11) ∧
      reopenFrameStream sendEnvRetry.reopenEnv (some 0) = ⟨some 1, none⟩ ∧
      sendFrameData sendEnvRetry (some 0) 7 =
        ⟨some 1, some (GoError.other 10), [(0, 7), (1, 7)], 1⟩) ∧
    sendEventData sendEnvRetry (some 0) 7 =
      ⟨some 1, some (GoError.other 10), [(0, 7), (1, 7)], 1⟩ :=
  ⟨⟨rfl, rfl, rfl,
    sendData_retransmit_once.1 sendEnvRetry 0 1 7 (GoError.other 10) rfl rfl⟩,
   sendData_retransmit_once.2 sendEnvRetry 0 1 7 (GoError.other 10) rfl rfl⟩

/-- C8 (amended): a nil stream handle makes sendFrameData/sendEventData
return nil immediately, dropping the payload: no Send is attempted, no
reopen is attempted, and the handle stays nil - so once reopen exhaustion
has nilled a handle, later send attempts keep silently dropping and never
try to reopen (the handle can only be restored by openFrameStream or
openEventStream, which run during Init). -/
theorem nil_stream_drop_spec :
    (∀ (env : SendEnv) (p : Payload), sendFrameData env none p = ⟨none, none, [], 0⟩) ∧
    (∀ (env : SendEnv) (p : Payload), sendEventData env none p = ⟨none, none, [], 0⟩) := by
  constructor
  · intro env p; rfl
  · intro env p; rfl

/-- Counterexample for C8 as stated: after reopen exhaustion nils the
handle, the next send attempt does NOT try to reopen the stream - it
performs zero reopen calls and zero sends and returns nil. -/
theorem nil_stream_no_reopen_counterexample :
    reopenFrameStream reopenEnvAllFail (some 0) = ⟨none, some GoError.contextCanceled⟩ ∧
    sendFrameData sendEnvAllFail none 5 = ⟨none, none, [], 0⟩ ∧
    (sendFrameData sendEnvAllFail none 5).reopenCalls = 0 ∧
    (sendFrameData sendEnvAllFail none 5).sends = [] := by
  refine ⟨?_, rfl, rfl, rfl⟩
  rfl

/-- C4: SelectSingleMonitor returns true exactly when the index is within
the display count enumerated at call time; on success it installs a
newly-constructed single-mode capturer bound to that index and records
single mode and the index in the config; on failure the returned state is
exactly the input state (no side effects). -/
theorem selectSingleMonitor_spec :
    (∀ (st : MonState) (count : Nat) (index : Int),
      (SelectSingleMonitor st count index).2 = true ↔
        0 ≤ index ∧ index < (count : Int)) ∧
    (∀ (st : MonState) (count : Nat) (index : Int),
      0 ≤ index → index < (count : Int) →
      SelectSingleMonitor st count index =
        (⟨{ st.cfg with MonitorMode := "single", MonitorIndex := index },
          Capturer.shot (newScreenshotCapturer "single" index st.cfg.CaptureEncoding
            st.cfg.JpegQuality)⟩, true)) ∧
    (∀ (st : MonState) (count : Nat) (index : Int),
      (SelectSingleMonitor st count index).2 = false →
      (SelectSingleMonitor st count index).1 = st) := by
  refine ⟨?_, ?_, ?_⟩
  · intro st count index
    by_cases h : index < 0 ∨ (count : Int) ≤ index
    · simp [SelectSingleMonitor, h]
      omega
    · simp [SelectSingleMonitor, h]
      omega
  · intro st count index h1 h2
    have h : ¬(index < 0 ∨ (count : Int) ≤ index) := by omega
    simp [SelectSingleMonitor, h]
  · intro st count index hfalse
    by_cases h : index < 0 ∨ (count : Int) ≤ index
    · simp [SelectSingleMonitor, h]
    · simp [SelectSingleMonitor, h] at hfalse

/-- Witness for C4: a valid selection on a two-display system and an
invalid one, evaluated on the agent built over cfg0. -/
theorem selectSingleMonitor_spec_witness :
    ((SelectSingleMonitor (agentNew cfg0 true) 2 1).2 = true) ∧
    (SelectSingleMonitor (agentNew cfg0 true) 2 1 =
      (⟨{ (agentNew cfg0 true).cfg with MonitorMode := "single", MonitorIndex := 1 },
        Capturer.shot (newScreenshotCapturer "single" 1
          (agentNew cfg0 true).cfg.CaptureEncoding
          (agentNew cfg0 true).cfg.JpegQuality)⟩, true)) ∧
    ((SelectSingleMonitor (agentNew cfg0 true) 2 5).2 = false ∧
      (SelectSingleMonitor (agentNew cfg0 true) 2 5).1 = agentNew cfg0 true) :=
  ⟨(selectSingleMonitor_spec.1 (agentNew cfg0 true) 2 1).mpr (by decide),
   selectSingleMonitor_spec.2.1 (agentNew cfg0 true) 2 1 (by decide) (by decide),
   ⟨by decide, selectSingleMonitor_spec.2.2 (agentNew cfg0 true) 2 5 (by decide)⟩⟩

/-- Helper: each control operation preserves the config fields other than
MonitorMode and MonitorIndex. -/
theorem otherFields_applyControlOp (st : MonState) (op : ControlOp) :
    otherFields (applyControlOp st op).cfg = otherFields st.cfg := by
  cases op with
  | selectSingle count index =>
      by_cases h : index < 0 ∨ (count : Int) ≤ index
      · simp [applyControlOp, SelectSingleMonitor, h]
      · simp [applyControlOp, SelectSingleMonitor, h, otherFields]
  | setCombined => simp [applyControlOp, SetCombinedMode, otherFields]

/-- Helper: sequences of control operations preserve the other config fields. -/
theorem otherFields_runControl (ops : List ControlOp) (st : MonState) :
    otherFields (runControl st ops).cfg = otherFields st.cfg := by
  induction ops generalizing st with
  | nil => rfl
  | cons op rest ih =>
      calc otherFields (runControl st (op :: rest)).cfg
          = otherFields (runControl (applyControlOp st op) rest).cfg := rfl
        _ = otherFields (applyControlOp st op).cfg := ih _
        _ = otherFields st.cfg := otherFields_applyControlOp st op

/-- C6 (amended): agent.New stores the caller's Config pointer without
copying, so the control surface writes its mode and index overrides
straight into the original Config object: SelectSingleMonitor with a valid
index sets that object's MonitorMode and MonitorIndex, SetCombinedMode
sets its MonitorMode, while every other field of the shared Config
survives any sequence of such calls unchanged. -/
theorem config_shared_mutation_spec :
    (∀ (cfg : Config) (goos : Bool), (agentNew cfg goos).cfg = cfg) ∧
    (∀ (st : MonState) (ops : List ControlOp),
      otherFields (runControl st ops).cfg = otherFields st.cfg) ∧
    (∀ (st : MonState) (count : Nat) (index : Int),
      0 ≤ index → index < (count : Int) →
      (SelectSingleMonitor st count index).1.cfg.MonitorMode = "single" ∧
      (SelectSingleMonitor st count index).1.cfg.MonitorIndex = index) ∧
    (∀ st : MonState, (SetCombinedMode st).cfg.MonitorMode = "combined") := by
  refine ⟨?_, ?_, ?_, ?_⟩
  · intro cfg goos
    cases goos <;> simp [agentNew]
  · intro st ops
    exact otherFields_runControl ops st
  · intro st count index h1 h2
    have h : ¬(index < 0 ∨ (count : Int) ≤ index) := by omega
    simp [SelectSingleMonitor, h]
  · intro st
    simp [SetCombinedMode]

/-- Witness for C6 (amended) at concrete inputs: a select followed by a
mode switch leaves the other fields of the shared config unchanged, and
the valid select records mode and index in it. -/
theorem config_shared_mutation_spec_witness :
    ((agentNew cfg0 true).cfg = cfg0) ∧
    (otherFields (runControl (agentNew cfg0 true)
        [ControlOp.selectSingle 2 1, ControlOp.setCombined]).cfg =
      otherFields (agentNew cfg0 true).cfg) ∧
    ((SelectSingleMonitor (agentNew cfg0 true) 2 1).1.cfg.MonitorMode = "single" ∧
      (SelectSingleMonitor (agentNew cfg0 true) 2 1).1.cfg.MonitorIndex = 1) ∧
    ((SetCombinedMode (agentNew cfg0 true)).cfg.MonitorMode = "combined") :=
  ⟨config_shared_mutation_spec.1 cfg0 true,
   config_shared_mutation_spec.2.1 (agentNew cfg0 true)
     [ControlOp.selectSingle 2 1, ControlOp.setCombined],
   config_shared_mutation_spec.2.2.1 (agentNew cfg0 true) 2 1 (by decide) (by decide),
   config_shared_mutation_spec.2.2.2 (agentNew cfg0 true)⟩

/-- Counterexample for C6 as stated: the agent built by New over the cfg0
cell, after one successful SelectSingleMonitor call, has changed the
MonitorMode field of that original Config object (New stores the pointer,
not a copy). -/
theorem config_mutation_counterexample :
    (SelectSingleMonitor (agentNew cfg0 true) 1 0).2 = true ∧
    (SelectSingleMonitor (agentNew cfg0 true) 1 0).1.cfg.MonitorMode ≠ cfg0.MonitorMode := by
  constructor <;> decide

/-- Helper: the capturer value after Capture differs from the input only in
the single-mode out-of-range fallback, which overwrites monitorIndex with 0. -/
theorem capture_snd (s : ScreenshotCapturer) (env : ScreenEnv) :
    (s.Capture env).2 =
      if env.displays.length ≠ 0 ∧ s.mode = "single" ∧
          (env.displays.length : Int) ≤ s.monitorIndex then
        { s with monitorIndex := 0 }
      else s := by
  dsimp only [ScreenshotCapturer.Capture]
  by_cases h0 : env.displays.length = 0
  · rw [if_pos h0, if_neg (by intro hco; exact hco.1 h0)]
  · by_cases hm : s.mode = "single"
    · by_cases hge : (env.displays.length : Int) ≤ s.monitorIndex
      · rw [if_neg h0, if_pos hm, if_pos hge, if_pos ⟨h0, hm, hge⟩]
        split <;> rfl
      · rw [if_neg h0, if_pos hm, if_neg hge, if_neg (by intro hco; exact hge hco.2.2)]
        split <;> rfl
    · rw [if_neg h0, if_neg hm, if_neg (by intro hco; exact hm hco.2.1)]
      split <;> rfl

/-- C7 (amended): the mode, encoding and jpegQuality fields of a strategy
instance are never modified, and switching mode or monitor installs
newly-constructed instances; Capture, however, does mutate the existing
instance in one case: in single mode with at least one display and a
configured index at or past the display count, the fallback persistently
overwrites monitorIndex with 0. -/
theorem capturer_mutation_spec :
    (∀ (s : ScreenshotCapturer) (env : ScreenEnv),
      (s.Capture env).2.mode = s.mode ∧
      (s.Capture env).2.encoding = s.encoding ∧
      (s.Capture env).2.jpegQuality = s.jpegQuality) ∧
    (∀ (s : ScreenshotCapturer) (env : ScreenEnv),
      (s.Capture env).2.monitorIndex =
        if env.displays.length ≠ 0 ∧ s.mode = "single" ∧
            (env.displays.length : Int) ≤ s.monitorIndex then 0
        else s.monitorIndex) ∧
    (∀ (st : MonState) (count : Nat) (index : Int),
      0 ≤ index → index < (count : Int) →
      (SelectSingleMonitor st count index).1.capturer =
        Capturer.shot (newScreenshotCapturer "single" index st.cfg.CaptureEncoding
          st.cfg.JpegQuality)) ∧
    (∀ st : MonState, (SetCombinedMode st).capturer =
      Capturer.shot (newScreenshotCapturer "combined" 0 st.cfg.CaptureEncoding
        st.cfg.JpegQuality)) := by
  refine ⟨?_, ?_, ?_, ?_⟩
  · intro s env
    rw [capture_snd]
    split <;> simp
  · intro s env
    rw [capture_snd]
    split <;> simp
  · intro st count index h1 h2
    have h : ¬(index < 0 ∨ (count : Int) ≤ index) := by omega
    simp [SelectSingleMonitor, h]
  · intro st
    simp [SetCombinedMode]

/-- Witness for C7 (amended): the fallback case mutates monitorIndex to 0
while leaving mode, encoding and quality; a valid selection installs the
newly constructed instance. -/
theorem capturer_mutation_spec_witness :
    (((newScreenshotCapturer "single" 5 "png" 80).Capture shotEnv1).2.mode = "single" ∧
      ((newScreenshotCapturer "single" 5 "png" 80).Capture shotEnv1).2.encoding = "png" ∧
      ((newScreenshotCapturer "single" 5 "png" 80).Capture shotEnv1).2.jpegQuality = 80) ∧
    (((newScreenshotCapturer "single" 5 "png" 80).Capture shotEnv1).2.monitorIndex =
      if shotEnv1.displays.length ≠ 0 ∧
          (newScreenshotCapturer "single" 5 "png" 80).mode = "single" ∧
          (shotEnv1.displays.length : Int) ≤
            (newScreenshotCapturer "single" 5 "png" 80).monitorIndex then 0
      else (newScreenshotCapturer "single" 5 "png" 80).monitorIndex) ∧
    ((SelectSingleMonitor (agentNew cfg0 true) 3 2).1.capturer =
      Capturer.shot (newScreenshotCapturer "single" 2
        (agentNew cfg0 true).cfg.CaptureEncoding (agentNew cfg0 true).cfg.JpegQuality)) ∧
    ((SetCombinedMode (agentNew cfg0 true)).capturer =
      Capturer.shot (newScreenshotCapturer "combined" 0
        (agentNew cfg0 true).cfg.CaptureEncoding (agentNew cfg0 true).cfg.JpegQuality)) :=
  ⟨capturer_mutation_spec.1 (newScreenshotCapturer "single" 5 "png" 80) shotEnv1,
   capturer_mutation_spec.2.1 (newScreenshotCapturer "single" 5 "png" 80) shotEnv1,
   capturer_mutation_spec.2.2.1 (agentNew cfg0 true) 3 2 (by decide) (by decide),
   capturer_mutation_spec.2.2.2 (agentNew cfg0 true)⟩

/-- Counterexample for C7 as stated: Capture on an existing single-mode
strategy whose monitorIndex 5 is out of range for the one enumerated
display modifies that instance: afterwards its monitorIndex field is 0. -/
theorem capturer_fallback_mutation_counterexample :
    (newScreenshotCapturer "single" 5 "png" 80).monitorIndex = 5 ∧
    ((newScreenshotCapturer "single" 5 "png" 80).Capture shotEnv1).2.monitorIndex = 0 := by
  constructor <;> decide

/-- Helper: the Go running-sum loop equals the list sum of the widths. -/
theorem foldl_add_dx (ds : List Rect) : ∀ a : Int,
    ds.foldl (fun acc b => acc + Rect.dx b) a = a + (ds.map Rect.dx).sum := by
  induction ds with
  | nil => intro a; simp
  | cons b rest ih =>
      intro a
      simp only [List.foldl_cons, List.map_cons, List.sum_cons, ih]
      ring

/-- Helper: totalWidth is the sum of the display widths. -/
theorem totalWidth_eq_sum (ds : List Rect) : totalWidth ds = (ds.map Rect.dx).sum := by
  simpa using foldl_add_dx ds 0

/-- Helper: the Go running-max loop dominates its seed and every height. -/
theorem foldl_maxH_bounds (ds : List Rect) : ∀ a : Int,
    a ≤ ds.foldl (fun acc b => if Rect.dy b > acc then Rect.dy b else acc) a ∧
    ∀ b ∈ ds, Rect.dy b ≤ ds.foldl (fun acc b => if Rect.dy b > acc then Rect.dy b else acc) a := by
  induction ds with
  | nil => intro a; simp
  | cons c rest ih =>
      intro a
      constructor
      · have h1 : a ≤ (if Rect.dy c > a then Rect.dy c else a) := by split <;> omega
        exact le_trans h1 (ih _).1
      · intro b hb
        rcases List.mem_cons.mp hb with rfl | hb2
        · have h1 : Rect.dy b ≤ (if Rect.dy b > a then Rect.dy b else a) := by split <;> omega
          exact le_trans h1 (ih _).1
        · exact (ih _).2 b hb2

/-- Helper: maxHeightFold is nonnegative. -/
theorem maxHeightFold_nonneg (ds : List Rect) : 0 ≤ maxHeightFold ds :=
  (foldl_maxH_bounds ds 0).1

/-- Helper: every display height is at most maxHeightFold. -/
theorem dy_le_maxHeightFold (ds : List Rect) (b : Rect) (hb : b ∈ ds) :
    Rect.dy b ≤ maxHeightFold ds :=
  (foldl_maxH_bounds ds 0).2 b hb

/-- Helper: no display precedes display 0. -/
theorem widthsBefore_zero (ds : List Rect) : widthsBefore ds 0 = 0 := by
  simp [widthsBefore]

/-- Helper: offset recurrence along a cons. -/
theorem widthsBefore_succ_cons (b : Rect) (rest : List Rect) (i : Nat) :
    widthsBefore (b :: rest) (i + 1) = Rect.dx b + widthsBefore rest i := by
  simp [widthsBefore]

/-- Helper: offsets are nonnegative when all widths are. -/
theorem widthsBefore_nonneg (ds : List Rect) (i : Nat)
    (h : ∀ b ∈ ds, 0 ≤ Rect.dx b) : 0 ≤ widthsBefore ds i := by
  apply List.sum_nonneg
  intro x hx
  rcases List.mem_map.mp hx with ⟨b, hb, rfl⟩
  exact h b (List.mem_of_mem_take hb)

/-- Helper: getD at an in-range position is a member of the list. -/
theorem getD_mem_of_lt : ∀ (ds : List Rect) (i : Nat), i < ds.length →
    ds.getD i rectDefault ∈ ds := by
  intro ds
  induction ds with
  | nil => intro i h; simp at h
  | cons b rest ih =>
      intro i h
      cases i with
      | zero => simp
      | succ j =>
          simp only [List.getD_cons_succ]
          exact List.mem_cons_of_mem _ (ih j (by simpa using h))

/-- Helper: a display's band ends within the total width. -/
theorem widthsBefore_add_le : ∀ (ds : List Rect) (i : Nat), i < ds.length →
    (∀ b ∈ ds, 0 ≤ Rect.dx b) →
    widthsBefore ds i + Rect.dx (ds.getD i rectDefault) ≤ (ds.map Rect.dx).sum := by
  intro ds
  induction ds with
  | nil => intro i h; simp at h
  | cons b rest ih =>
      intro i hi hdx
      cases i with
      | zero =>
          simp only [widthsBefore_zero, List.getD_cons_zero, List.map_cons, List.sum_cons,
            zero_add]
          have : 0 ≤ (rest.map Rect.dx).sum := by
            apply List.sum_nonneg
            intro x hx
            rcases List.mem_map.mp hx with ⟨c, hc, rfl⟩
            exact hdx c (List.mem_cons_of_mem _ hc)
          omega
      | succ j =>
          have h := ih j (by simpa using hi) (fun c hc => hdx c (List.mem_cons_of_mem _ hc))
          simp only [widthsBefore_succ_cons, List.getD_cons_succ, List.map_cons, List.sum_cons]
          omega

/-- Helper: pixels strictly left of the starting offset are untouched by
the combined draw loop. -/
theorem drawDisplays_pix_left (env : ScreenEnv) :
    ∀ (ds : List Rect) (canvas : Image) (off : Int) (canvas2 : Image) (x y : Int),
      (∀ b ∈ ds, 0 ≤ Rect.dx b) →
      drawDisplays env ds canvas off = Except.ok canvas2 →
      x < off →
      canvas2.pix x y = canvas.pix x y := by
  intro ds
  induction ds with
  | nil =>
      intro canvas off canvas2 x y hdx h hx
      simp only [drawDisplays, Except.ok.injEq] at h
      rw [← h]
  | cons b rest ih =>
      intro canvas off canvas2 x y hdx h hx
      simp only [drawDisplays] at h
      cases hcr : env.captureRect b with
      | error e => rw [hcr] at h; simp at h
      | ok img =>
          rw [hcr] at h
          have hd : 0 ≤ Rect.dx b := hdx b (by simp)
          have h2 := ih _ _ _ x y (fun c hc => hdx c (List.mem_cons_of_mem _ hc)) h
            (by omega)
          rw [h2]
          show (drawSrc canvas off 0 (off + Rect.dx b) (Rect.dy b) img).pix x y = canvas.pix x y
          simp only [drawSrc]
          split
          · exfalso; omega
          · rfl

/-- Helper: within display i's band (starting at the running offset plus
the widths of displays before it, top-aligned), the finished canvas shows
that display's captured pixels. -/
theorem drawDisplays_pix_place (env : ScreenEnv) (imgOf : Rect → Image) :
    ∀ (ds : List Rect) (canvas : Image) (off : Int) (canvas2 : Image) (i : Nat) (x y : Int),
      (∀ b ∈ ds, env.captureRect b = Except.ok (imgOf b)) →
      (∀ b ∈ ds, 0 ≤ Rect.dx b) →
      (∀ b ∈ ds, (imgOf b).width = Rect.dx b ∧ (imgOf b).height = Rect.dy b) →
      drawDisplays env ds canvas off = Except.ok canvas2 →
      i < ds.length →
      off + widthsBefore ds i ≤ x →
      x < off + widthsBefore ds i + Rect.dx (ds.getD i rectDefault) →
      0 ≤ y → y < Rect.dy (ds.getD i rectDefault) →
      0 ≤ x → x < canvas.width → y < canvas.height →
      canvas2.pix x y = (imgOf (ds.getD i rectDefault)).pix (x - off - widthsBefore ds i) y := by
  intro ds
  induction ds with
  | nil =>
      intro canvas off canvas2 i x y _ _ _ _ hi
      simp at hi
  | cons b rest ih =>
      intro canvas off canvas2 i x y hcap hdx hdim h hi hx1 hx2 hy1 hy2 hx0 hxw hyh
      have hcapb : env.captureRect b = Except.ok (imgOf b) := hcap b (by simp)
      simp only [drawDisplays, hcapb] at h
      cases i with
      | zero =>
          rw [widthsBefore_zero] at hx1 hx2
          simp only [List.getD_cons_zero] at hx2 hy2 ⊢
          have hleft := drawDisplays_pix_left env rest _ _ _ x y
            (fun c hc => hdx c (List.mem_cons_of_mem _ hc)) h (by omega)
          rw [hleft]
          have hdimb := hdim b (by simp)
          rw [widthsBefore_zero]
          show (drawSrc canvas off 0 (off + Rect.dx b) (Rect.dy b) (imgOf b)).pix x y = _
          simp only [drawSrc]
          rw [hdimb.1, hdimb.2]
          rw [if_pos (by omega)]
          norm_num
      | succ j =>
          have hd : 0 ≤ Rect.dx b := hdx b (by simp)
          rw [widthsBefore_succ_cons] at hx1 hx2
          simp only [List.getD_cons_succ] at hx2 hy2 ⊢
          have hres := ih (drawSrc canvas off 0 (off + Rect.dx b) (Rect.dy b) (imgOf b))
            (off + Rect.dx b) canvas2 j x y
            (fun c hc => hcap c (List.mem_cons_of_mem _ hc))
            (fun c hc => hdx c (List.mem_cons_of_mem _ hc))
            (fun c hc => hdim c (List.mem_cons_of_mem _ hc))
            h (by simpa using hi) (by omega) (by omega) hy1 hy2 hx0
            (by simpa [drawSrc] using hxw) (by simpa [drawSrc] using hyh)
          rw [hres, widthsBefore_succ_cons]
          congr 1
          ring

/-- Helper: the combined draw loop succeeds and preserves the canvas
dimensions when every capture succeeds. -/
theorem drawDisplays_ok (env : ScreenEnv) (imgOf : Rect → Image) :
    ∀ (ds : List Rect) (canvas : Image) (off : Int),
      (∀ b ∈ ds, env.captureRect b = Except.ok (imgOf b)) →
      ∃ canvas2, drawDisplays env ds canvas off = Except.ok canvas2 ∧
        canvas2.width = canvas.width ∧ canvas2.height = canvas.height := by
  intro ds
  induction ds with
  | nil =>
      intro canvas off hcap
      exact ⟨canvas, rfl, rfl, rfl⟩
  | cons b rest ih =>
      intro canvas off hcap
      have hcapb := hcap b (by simp)
      obtain ⟨c2, hc2, hw, hh⟩ := ih (drawSrc canvas off 0 (off + Rect.dx b) (Rect.dy b)
        (imgOf b)) (off + Rect.dx b) (fun c hc => hcap c (List.mem_cons_of_mem _ hc))
      refine ⟨c2, ?_, by simpa [drawSrc] using hw, by simpa [drawSrc] using hh⟩
      simp only [drawDisplays, hcapb]
      exact hc2

/-- C5: in combined mode with at least one enumerated display (each of
nonnegative width, each capture returning an image of the display's size),
Capture encodes a canvas whose width is the sum of the display widths and
whose height is their maximum, in which display i occupies the horizontal
band starting at the sum of the widths of displays 0..i-1, top-aligned at
y = 0, showing exactly that display's captured pixels; with zero
enumerated displays it encodes a 1 x 1 placeholder instead of erroring. -/
theorem capture_combined_geometry :
    (∀ (env : ScreenEnv) (s : ScreenshotCapturer) (imgOf : Rect → Image),
      s.mode = "combined" →
      env.displays ≠ [] →
      (∀ b ∈ env.displays, env.captureRect b = Except.ok (imgOf b)) →
      (∀ b ∈ env.displays, (imgOf b).width = Rect.dx b ∧ (imgOf b).height = Rect.dy b) →
      (∀ b ∈ env.displays, 0 ≤ Rect.dx b) →
      ∃ canvas, (s.Capture env).1 = Except.ok (s.encode canvas) ∧
        canvas.width = totalWidth env.displays ∧
        canvas.height = maxHeightFold env.displays ∧
        (∀ (i : Nat) (x y : Int), i < env.displays.length →
          widthsBefore env.displays i ≤ x →
          x < widthsBefore env.displays i + Rect.dx (env.displays.getD i rectDefault) →
          0 ≤ y → y < Rect.dy (env.displays.getD i rectDefault) →
          canvas.pix x y =
            (imgOf (env.displays.getD i rectDefault)).pix
              (x - widthsBefore env.displays i) y)) ∧
    (∀ (env : ScreenEnv) (s : ScreenshotCapturer),
      env.displays = [] →
      ∃ img, (s.Capture env).1 = Except.ok (s.encode img) ∧
        img.width = 1 ∧ img.height = 1) := by
  constructor
  · intro env s imgOf hm hne hcap hdim hdx
    have h0 : ¬(env.displays.length = 0) := by
      simpa [List.length_eq_zero] using hne
    have hms : ¬(s.mode = "single") := by rw [hm]; decide
    obtain ⟨canvas2, hdd, hw, hh⟩ := drawDisplays_ok env imgOf env.displays
      (newRGBA (totalWidth env.displays) (maxHeightFold env.displays)) 0 hcap
    refine ⟨canvas2, ?_, by simpa [newRGBA] using hw, by simpa [newRGBA] using hh, ?_⟩
    · dsimp only [ScreenshotCapturer.Capture]
      rw [if_neg h0, if_neg hms, hdd]
    · intro i x y hi hx1 hx2 hy1 hy2
      have hx0 : 0 ≤ x := le_trans (widthsBefore_nonneg env.displays i hdx) hx1
      have hxw : x < canvas2.width := by
        rw [hw]
        have hle := widthsBefore_add_le env.displays i hi hdx
        simp only [newRGBA]
        rw [totalWidth_eq_sum]
        omega
      have hyh : y < canvas2.height := by
        rw [hh]
        have hmem := getD_mem_of_lt env.displays i hi
        have hle := dy_le_maxHeightFold env.displays _ hmem
        simp only [newRGBA]
        omega
      have hres := drawDisplays_pix_place env imgOf env.displays
        (newRGBA (totalWidth env.displays) (maxHeightFold env.displays)) 0 canvas2 i x y
        hcap hdx hdim hdd hi (by omega) (by omega) hy1 hy2 hx0
        (by rw [← hw]; exact hxw) (by rw [← hh]; exact hyh)
      rw [hres]
      congr 1
      ring
  · intro env s he
    refine ⟨newRGBA 1 1, ?_, rfl, rfl⟩
    dsimp only [ScreenshotCapturer.Capture]
    rw [if_pos (by simp [he])]

/-- Witness for C5 on the spec's example: displays (0,0,800,600) and
(0,0,1024,768) give a 1824 x 768 canvas with the first display's band at
x in [0, 800) and the second's at x in [800, 1824), both top-aligned; and
a zero-display environment yields a 1 x 1 placeholder. -/
theorem capture_combined_geometry_witness :
    (totalWidth displays2 = 1824 ∧ maxHeightFold displays2 = 768 ∧
      widthsBefore displays2 0 = 0 ∧ widthsBefore displays2 1 = 800 ∧
      Rect.dx (displays2.getD 0 rectDefault) = 800 ∧
      Rect.dx (displays2.getD 1 rectDefault) = 1024 ∧
      Rect.dy (displays2.getD 0 rectDefault) = 600 ∧
      Rect.dy (displays2.getD 1 rectDefault) = 768) ∧
    (∃ canvas, ((newScreenshotCapturer "combined" 0 "png" 80).Capture shotEnv2).1 =
        Except.ok ((newScreenshotCapturer "combined" 0 "png" 80).encode canvas) ∧
      canvas.width = totalWidth shotEnv2.displays ∧
      canvas.height = maxHeightFold shotEnv2.displays ∧
      (∀ (i : Nat) (x y : Int), i < shotEnv2.displays.length →
        widthsBefore shotEnv2.displays i ≤ x →
        x < widthsBefore shotEnv2.displays i + Rect.dx (shotEnv2.displays.getD i rectDefault) →
        0 ≤ y → y < Rect.dy (shotEnv2.displays.getD i rectDefault) →
        canvas.pix x y =
          (capImg (shotEnv2.displays.getD i rectDefault)).pix
            (x - widthsBefore shotEnv2.displays i) y)) ∧
    (∃ img, ((newScreenshotCapturer "combined" 0 "png" 80).Capture shotEnv0).1 =
        Except.ok ((newScreenshotCapturer "combined" 0 "png" 80).encode img) ∧
      img.width = 1 ∧ img.height = 1) :=
  ⟨⟨by decide, by decide, by decide, by decide, by decide, by decide, by decide, by decide⟩,
   capture_combined_geometry.1 shotEnv2 (newScreenshotCapturer "combined" 0 "png" 80) capImg
     rfl (by decide)
     (fun b _ => rfl)
     (fun b _ => ⟨rfl, rfl⟩)
     (by intro b hb
         simp only [shotEnv2, displays2, List.mem_cons, List.not_mem_nil, or_false] at hb
         rcases hb with rfl | rfl <;> decide),
   capture_combined_geometry.2 shotEnv0 (newScreenshotCapturer "combined" 0 "png" 80) rfl⟩

end AgentModel
